import Mathlib

/-!
Shallow embedding of kube-hpa-scale-to-zero (src/main.py).

The controller keeps a registry of tracked HPAs (dict `HPAs` in the source),
updated by a discovery watcher (`watch_hpa` / `update_hpa` /
`build_metric_value_path`), and a reconciliation loop (`watch_metrics`) that,
for each tracked HPA, reads the scale subresource and a custom metric
(`get_replicas` / `get_needed_replicas`), decides via the stabilization
algorithm (`scaling_is_needed` with `scaling_up_is_needed` /
`scaling_down_is_needed`) and patches the target (`update_target`).

External reads are modelled by an oracle `World`: numbered answers for the
successive `read_scale` calls and metric GET requests; `St` counts how many
of each a run has consumed.  Python exceptions are modelled by the `Err`
inductive threaded through `Except`; the dedicated constructor
`Err.unboundLocal` models the `UnboundLocalError` raised by the source when
`get_replicas` swallows a 404 from `read_scale` and then evaluates
`scale.status.replicas` with `scale` never assigned.
-/

/-- The scale subresource of a workload: `status.replicas`, `spec.replicas`
and all the remaining fields the controller does not own, collapsed into one
opaque component. -/
structure Scale where
  status_replicas : Int
  spec_replicas : Int
  otherFields : String
deriving DecidableEq

/-- Result of one `read_scale(namespace=..., name=...)` call:
the scale object, a 404 `ApiException`, or another `ApiException`. -/
inductive ScaleRead where
  | found (s : Scale)
  | notFound
  | apiError (status : Nat)
deriving DecidableEq

/-- Result of one metric GET (`DYNAMIC.request("GET", metric_value_path)`),
already reduced to the single `items[0].value` integer the source consumes. -/
inductive MetricResult where
  | value (v : Int)
  | apiError (status : Nat)
deriving DecidableEq

/-- Python exceptions that cross function boundaries in the source:
`MetricNotFound`, `kubernetes ApiException(status)`, the `UnboundLocalError`
slip in `get_replicas`, and the `ValueError` for an unsupported target kind. -/
inductive Err where
  | metricNotFound
  | apiException (status : Nat)
  | unboundLocal
  | valueError
deriving DecidableEq

/-- How many scale reads and metric reads a run has consumed from the oracle. -/
structure St where
  scaleIdx : Nat
  metricIdx : Nat
deriving DecidableEq

/-- Oracle for the external cluster: the answer to the n-th scale read and to
the n-th metric read. -/
structure World where
  scaleReads : Nat → ScaleRead
  metricReads : Nat → MetricResult

/-- Python's `min(int(...), 1)` in `get_needed_replicas`. -/
def clamp_to_one (v : Int) : Int :=
  if v ≤ 1 then v else 1

/-- `get_needed_replicas` (src/main.py:139-153): returns `min(value, 1)`;
an `ApiException` with status 404, 503 or 403 becomes `MetricNotFound`,
any other status is re-raised. -/
def get_needed_replicas : MetricResult → Except Err Int
  | .value v => .ok (clamp_to_one v)
  | .apiError s =>
      if s = 404 ∨ s = 503 ∨ s = 403 then .error .metricNotFound
      else .error (.apiException s)

/-- Python's `bool(...)` on an int: nonzero. -/
def pyBool (x : Int) : Bool := x != 0

/-- `scaling_up_is_needed` (src/main.py:204-205). -/
def scaling_up_is_needed (current_replicas needed_replicas : Int) : Bool :=
  decide (current_replicas < needed_replicas) && decide (needed_replicas = 1)

/-- `scaling_down_is_needed` (src/main.py:208-209). -/
def scaling_down_is_needed (current_replicas needed_replicas : Int) : Bool :=
  decide (current_replicas > needed_replicas) && decide (needed_replicas = 0)

/-- `get_replicas` (src/main.py:156-167).  A 404 from `read_scale` is caught
and logged, after which the source evaluates `scale.status.replicas` with
`scale` never assigned: that raises `UnboundLocalError`, modelled by
`Err.unboundLocal`.  Any other `ApiException` is re-raised.  On a successful
scale read the metric is fetched and `(current, needed)` returned. -/
def get_replicas (w : World) (st : St) : Except Err (Int × Int) × St :=
  match w.scaleReads st.scaleIdx with
  | .found scale =>
      match get_needed_replicas (w.metricReads st.metricIdx) with
      | .ok n => (.ok (scale.status_replicas, n), ⟨st.scaleIdx + 1, st.metricIdx + 1⟩)
      | .error e => (.error e, ⟨st.scaleIdx + 1, st.metricIdx + 1⟩)
  | .notFound => (.error .unboundLocal, ⟨st.scaleIdx + 1, st.metricIdx⟩)
  | .apiError s => (.error (.apiException s), ⟨st.scaleIdx + 1, st.metricIdx⟩)

/-- A tracked HPA record (dataclass `HPA`, src/main.py:33-41). -/
structure HPA where
  name : String
  nspace : String
  metric_value_path : String
  target_kind : String
  target_name : String
  scale_up_stabilization_window : Nat
  scale_down_stabilization_window : Nat
deriving DecidableEq

/-- The `while time() < stabilization_end_time` poll loop of
`scaling_is_needed` (src/main.py:235-243), with one fuel unit per
`STABILIZATION_CHECK_INTERVAL` tick: re-read current and needed replicas; if
their Python-boolean states coincide the pending scale is canceled (`False`);
otherwise sleep one tick and continue; when the window elapses, `True`. -/
def stabilization_loop (w : World) : Nat → St → Except Err Bool × St
  | 0, st => (.ok true, st)
  | fuel + 1, st =>
      match get_replicas w st with
      | (.ok (c, n), st') =>
          if pyBool c == pyBool n then (.ok false, st')
          else stabilization_loop w fuel st'
      | (.error e, st') => (.error e, st')

/-- `scaling_is_needed` (src/main.py:212-245): read `(current, needed)`,
classify the intent, select the matching stabilization window; a zero window
confirms immediately, a nonzero window runs the poll loop. -/
def scaling_is_needed (hpa : HPA) (w : World) (st : St) : Except Err Bool × St :=
  match get_replicas w st with
  | (.ok (c, n), st') =>
      if scaling_up_is_needed c n then
        if hpa.scale_up_stabilization_window = 0 then (.ok true, st')
        else stabilization_loop w hpa.scale_up_stabilization_window st'
      else if scaling_down_is_needed c n then
        if hpa.scale_down_stabilization_window = 0 then (.ok true, st')
        else stabilization_loop w hpa.scale_down_stabilization_window st'
      else (.ok false, st')
  | (.error e, st') => (.error e, st')

/-- Observable outcome of one `update_target` call: a patch with the given
body, completion without a patch, or an exception escaping `update_target`. -/
inductive UpdateOutcome where
  | patched (body : Scale)
  | noPatch
  | fatal (e : Err)
deriving DecidableEq

/-- The exception handlers at the end of `update_target`
(src/main.py:196-201): an `ApiException` with status 404 is logged and
swallowed, `MetricNotFound` is logged and swallowed, everything else
escapes. -/
def catch_api_and_metric : Err → UpdateOutcome
  | .apiException 404 => .noPatch
  | .metricNotFound => .noPatch
  | e => .fatal e

/-- The body of the `if scaling_is_needed(...)` branch of `update_target`
(src/main.py:184-190): read the scale object, call `get_replicas` once more
(a further scale read plus the metric read that supplies `needed_replicas`),
set `scale.spec.replicas = needed_replicas` and patch with that body. -/
def apply_scaling (w : World) (st1 : St) : UpdateOutcome × St :=
  match w.scaleReads st1.scaleIdx with
  | .found scale =>
      match get_replicas w ⟨st1.scaleIdx + 1, st1.metricIdx⟩ with
      | (.ok (_, n), st3) => (.patched { scale with spec_replicas := n }, st3)
      | (.error e, st3) => (catch_api_and_metric e, st3)
  | .notFound => (.noPatch, ⟨st1.scaleIdx + 1, st1.metricIdx⟩)
  | .apiError s => (catch_api_and_metric (.apiException s), ⟨st1.scaleIdx + 1, st1.metricIdx⟩)

/-- `update_target` (src/main.py:170-201): dispatch on the target kind
(anything but Deployment/StatefulSet raises `ValueError`), run
`scaling_is_needed`, then either the patch branch or the logging-only
`else` branch (which still calls `get_replicas`), with the two exception
handlers applied to whatever escapes the `try` body. -/
def update_target (hpa : HPA) (w : World) (st : St) : UpdateOutcome × St :=
  if hpa.target_kind = "Deployment" ∨ hpa.target_kind = "StatefulSet" then
    match scaling_is_needed hpa w st with
    | (.ok true, st1) => apply_scaling w st1
    | (.ok false, st1) =>
        match get_replicas w st1 with
        | (.ok _, st2) => (.noPatch, st2)
        | (.error e, st2) => (catch_api_and_metric e, st2)
    | (.error e, st1) => (catch_api_and_metric e, st1)
  else (.fatal .valueError, st)

/-- Fate of the reconciliation task after one `update_target` call: the
`_watch` closure of `watch_metrics` (src/main.py:59-67) wraps the loop in
`except Exception: os._exit(1)`, so any escaping exception terminates the
whole process. -/
inductive StepResult where
  | keepRunning
  | exitProcess (code : Nat)
deriving DecidableEq

/-- One reconciliation step for one HPA, as seen from `_watch`
(src/main.py:59-67): an exception escaping `update_target` reaches the
catch-all and calls `os._exit(1)`; otherwise the loop continues. -/
def watch_step (hpa : HPA) (w : World) (st : St) : StepResult :=
  match (update_target hpa w st).1 with
  | .fatal _ => .exitProcess 1
  | _ => .keepRunning

/-- A world in which every scale read succeeds (current replicas given by
`cur`) and every metric read succeeds (value given by `met`). -/
def allFoundWorld (cur met : Nat → Int) : World where
  scaleReads := fun j => .found ⟨cur j, cur j, ""⟩
  metricReads := fun j => .value (met j)

/-- The `object` sub-document of one entry of the
`autoscaling.alpha.kubernetes.io/metrics` annotation: target kind and name,
metric name, and the selector (the empty list models an absent or empty
selector, both falsy in Python). -/
structure MetricObjectSpec where
  targetKind : String
  targetName : String
  metricName : String
  selector : List (String × String)
deriving DecidableEq

/-- One entry of the parsed metrics annotation: its `type` field and its
`object` sub-document. -/
structure MetricEntry where
  entryType : String
  object : MetricObjectSpec
deriving DecidableEq

/-- The exceptions `build_metric_value_path` can raise from its `try` block:
`StopIteration` when no entry has type `Object`, `AssertionError` when the
first such entry has a truthy selector or a non-Service target kind. -/
inductive BuildErr where
  | stopIteration
  | assertionError
deriving DecidableEq

/-- `build_metric_value_path` (src/main.py:118-136): take the FIRST entry of
type `Object` (`next(...)`, `StopIteration` if none), assert its selector is
falsy and its target kind is `Service` (`AssertionError` otherwise), then
build the custom-metrics API path.  On `StopIteration`/`AssertionError` the
source logs and RE-RAISES the exception. -/
def build_metric_value_path (nspace : String) (metrics : List MetricEntry) :
    Except BuildErr String :=
  match metrics.find? (fun m => m.entryType == "Object") with
  | none => .error .stopIteration
  | some m =>
      if !m.object.selector.isEmpty then .error .assertionError
      else if m.object.targetKind ≠ "Service" then .error .assertionError
      else .ok ("apis/custom.metrics.k8s.io/v1beta1/namespaces/" ++ nspace
                ++ "/services/" ++ m.object.targetName ++ "/" ++ m.object.metricName)

/-- The registry `HPAs` (src/main.py:50): namespaced name to record. -/
abbrev Registry := List (String × HPA)

/-- Membership of a key in the registry. -/
def regContains : Registry → String → Bool
  | [], _ => false
  | (k, _) :: rest, key => k == key || regContains rest key

/-- `HPAs.pop(namespaced_name, None)`: drop every binding of the key. -/
def regRemove : Registry → String → Registry
  | [], _ => []
  | (k, h) :: rest, key =>
      if k == key then regRemove rest key else (k, h) :: regRemove rest key

/-- `HPAs[namespaced_name] = ...`: bind the key, replacing any old binding. -/
def regInsert (reg : Registry) (key : String) (h : HPA) : Registry :=
  (key, h) :: regRemove reg key

/-- Kind of a watch event, as delivered by the HPA watch stream.  The source
never consults it: `update_hpa` receives only the event object's metadata. -/
inductive EventType where
  | added
  | modified
  | deleted
deriving DecidableEq

/-- What the fresh `read_namespaced_horizontal_pod_autoscaler` inside
`update_hpa` returns for the event's HPA: the HPA (metrics annotation already
parsed from JSON, plus `spec.scale_target_ref`), a 404, or another
`ApiException`. -/
structure HpaSpecRead where
  annotations : List MetricEntry
  targetKind : String
  targetName : String
deriving DecidableEq

/-- Result of the fresh HPA read performed by `update_hpa`. -/
inductive HpaRead where
  | found (s : HpaSpecRead)
  | notFound
  | apiError (status : Nat)
deriving DecidableEq

/-- One event of the discovery watch stream together with the answer the
fresh re-read of that HPA would produce. -/
structure WatchEvent where
  etype : EventType
  nspace : String
  name : String
  read : HpaRead
deriving DecidableEq

/-- `f"{hpa_namespace}/{hpa_name}"` (src/main.py:99). -/
def eventKey (ev : WatchEvent) : String := ev.nspace ++ "/" ++ ev.name

/-- Exceptions escaping `update_hpa`: a re-raised annotation failure from
`build_metric_value_path`, or a non-404 `ApiException` from the HPA read. -/
inductive UpdErr where
  | buildError (e : BuildErr)
  | api (status : Nat)
deriving DecidableEq

/-- `update_hpa` (src/main.py:94-115): re-read the HPA; if found, build the
metric path and upsert the record (an annotation failure escapes before the
assignment, leaving the registry untouched); on a 404 remove the entry; any
other `ApiException` is re-raised.  Returns the resulting registry and the
escaping exception, if any. -/
def update_hpa (reg : Registry) (ev : WatchEvent) (upW downW : Nat) :
    Registry × Option UpdErr :=
  match ev.read with
  | .found s =>
      match build_metric_value_path ev.nspace s.annotations with
      | .ok path =>
          (regInsert reg (eventKey ev)
            { name := ev.name, nspace := ev.nspace, metric_value_path := path,
              target_kind := s.targetKind, target_name := s.targetName,
              scale_up_stabilization_window := upW,
              scale_down_stabilization_window := downW }, none)
      | .error e => (reg, some (.buildError e))
  | .notFound => (regRemove reg (eventKey ev), none)
  | .apiError status => (reg, some (.api status))

/-- The event loop of `watch_hpa` (src/main.py:76-91): process events in
order; an `ApiException` with status 410 is caught and the stream reopened
(processing continues with the remaining events); any other escaping
exception terminates the watcher, leaving later events unprocessed. -/
def process_events (reg : Registry) (upW downW : Nat) :
    List WatchEvent → Registry × Option UpdErr
  | [] => (reg, none)
  | ev :: rest =>
      match update_hpa reg ev upW downW with
      | (reg', none) => process_events reg' upW downW rest
      | (reg', some (.api s)) =>
          if s = 410 then process_events reg' upW downW rest
          else (reg', some (.api s))
      | (reg', some (.buildError e)) => (reg', some (.buildError e))

/-- A tracked HPA targeting Deployment ns/a with both windows zero. -/
def hpaDep : HPA :=
  ⟨"a", "ns", "p", "Deployment", "a", 0, 0⟩

/-- A tracked HPA targeting Deployment ns/a with a scale-down window of 5. -/
def hpaDownWindow : HPA :=
  ⟨"a", "ns", "p", "Deployment", "a", 0, 5⟩

/-- A world in which every scale read answers 404 (target absent). -/
def w404 : World :=
  ⟨fun _ => .notFound, fun _ => .value 1⟩

/-- A world in which scale reads succeed but every metric read answers 503. -/
def w503 : World :=
  ⟨fun _ => .found ⟨1, 1, ""⟩, fun _ => .apiError 503⟩

/-- A world whose first two scale reads return a scale object with spare
field `"a"` and whose later reads return one with spare field `"b"`;
the metric is constantly 0. -/
def wTwoReads : World :=
  ⟨fun j => if j ≤ 1 then .found ⟨1, 1, "a"⟩ else .found ⟨1, 1, "b"⟩,
   fun _ => .value 0⟩

/-- A world with the target at 0 replicas and the metric constantly 5. -/
def wMetricFive : World :=
  ⟨fun _ => .found ⟨0, 0, "x"⟩, fun _ => .value 5⟩

/-- Current replicas constantly 1. -/
def curOne : Nat → Int := fun _ => 1

/-- A metric trace that is 0 at reads 0 and 1 and jumps to 3 at read 2. -/
def metFlip : Nat → Int := fun j => if j ≤ 1 then 0 else 3

/-- A qualifying metrics-annotation entry: type Object, Service target,
empty selector. -/
def validEntry : MetricEntry :=
  ⟨"Object", ⟨"Service", "svc", "metric-one", []⟩⟩

/-- A second qualifying entry with a different service and metric name. -/
def entryTwo : MetricEntry :=
  ⟨"Object", ⟨"Service", "svc2", "metric-two", []⟩⟩

/-- An entry of type Object whose target kind is Pod, not Service. -/
def entryPod : MetricEntry :=
  ⟨"Object", ⟨"Pod", "p", "metric-three", []⟩⟩

/-- An added event for ns/a whose annotation has no Object entry. -/
def evBad : WatchEvent :=
  ⟨.added, "ns", "a", .found ⟨[], "Deployment", "a"⟩⟩

/-- An added event for ns/b with a valid annotation. -/
def evGood : WatchEvent :=
  ⟨.added, "ns", "b", .found ⟨[validEntry], "Deployment", "b"⟩⟩

/-- A modified event for ns/c whose only Object entry targets a Pod. -/
def evPodTarget : WatchEvent :=
  ⟨.modified, "ns", "c", .found ⟨[entryPod], "Deployment", "c"⟩⟩

/-- An added event for ns/a whose annotation has two qualifying entries. -/
def evTwoObjects : WatchEvent :=
  ⟨.added, "ns", "a", .found ⟨[validEntry, entryTwo], "Deployment", "a"⟩⟩

/-- A delete event for ns/a whose fresh re-read still finds the HPA with a
valid annotation. -/
def evDeleteFound : WatchEvent :=
  ⟨.deleted, "ns", "a", .found ⟨[validEntry], "Deployment", "a"⟩⟩

/-- A delete event for ns/a whose fresh re-read answers 404. -/
def evNotFound : WatchEvent :=
  ⟨.deleted, "ns", "a", .notFound⟩

theorem clamp_to_one_le_one (v : Int) : clamp_to_one v ≤ 1 := by
  unfold clamp_to_one
  split <;> omega

theorem get_needed_replicas_ok (m : MetricResult) (k : Int)
    (h : get_needed_replicas m = .ok k) : k ≤ 1 := by
  cases m with
  | value v =>
      simp only [get_needed_replicas, Except.ok.injEq] at h
      exact h ▸ clamp_to_one_le_one v
  | apiError s =>
      simp only [get_needed_replicas] at h
      split at h <;> simp at h

theorem scaling_down_not_up (c n : Int)
    (h : scaling_down_is_needed c n = true) : scaling_up_is_needed c n = false := by
  simp only [scaling_down_is_needed, scaling_up_is_needed, Bool.and_eq_true,
    decide_eq_true_eq] at *
  simp only [Bool.and_eq_false_iff, decide_eq_false_iff_not]
  omega

theorem get_replicas_ok_inv (w : World) (st st' : St) (c n : Int)
    (h : get_replicas w st = (.ok (c, n), st')) :
    n ≤ 1 ∧ st' = ⟨st.scaleIdx + 1, st.metricIdx + 1⟩ := by
  unfold get_replicas at h
  split at h
  case h_1 scale heq =>
    split at h
    case h_1 k hk =>
      simp only [Prod.mk.injEq, Except.ok.injEq] at h
      obtain ⟨⟨-, hn⟩, hst⟩ := h
      exact ⟨hn ▸ get_needed_replicas_ok _ _ hk, hst.symm⟩
    case h_2 => simp at h
  case h_2 => simp at h
  case h_3 => simp at h

theorem get_replicas_allFound (cur met : Nat → Int) (k : Nat) :
    get_replicas (allFoundWorld cur met) ⟨k, k⟩ =
      (.ok (cur k, clamp_to_one (met k)), ⟨k + 1, k + 1⟩) := rfl

theorem catch_api_and_metric_ne_patched (e : Err) (b : Scale) :
    catch_api_and_metric e ≠ .patched b := by
  unfold catch_api_and_metric
  split <;> simp

/-- Claim C1: for every metric value v read by the metric gateway, the
derived desired replica count (`get_needed_replicas`, i.e. `min(v, 1)`) is 1
if v ≥ 1 and 0 if v = 0; and if v < 0 then neither the scale-up predicate
`scaling_up_is_needed` nor the scale-down predicate `scaling_down_is_needed`
holds for any current replica count, so no scaling action is taken. -/
theorem C1_clamp_and_negative_no_action (v : Int) :
    (1 ≤ v → get_needed_replicas (.value v) = .ok 1) ∧
    (v = 0 → get_needed_replicas (.value v) = .ok 0) ∧
    (v < 0 → ∀ c : Int,
      scaling_up_is_needed c (clamp_to_one v) = false ∧
      scaling_down_is_needed c (clamp_to_one v) = false) := by
  refine ⟨?_, ?_, ?_⟩
  · intro hv
    simp only [get_needed_replicas, clamp_to_one, Except.ok.injEq]
    split <;> omega
  · intro hv
    subst hv
    rfl
  · intro hv c
    have hc : clamp_to_one v = v := by unfold clamp_to_one; split <;> omega
    rw [hc]
    constructor
    · simp only [scaling_up_is_needed, Bool.and_eq_false_iff, decide_eq_false_iff_not]
      omega
    · simp only [scaling_down_is_needed, Bool.and_eq_false_iff, decide_eq_false_iff_not]
      omega

/-- Witness for C1 at v = 5, v = 0 and v = -2 (with current replica counts
0 and 3 for the negative case). -/
theorem C1_clamp_and_negative_no_action_witness :
    get_needed_replicas (.value 5) = .ok 1 ∧
    get_needed_replicas (.value 0) = .ok 0 ∧
    scaling_up_is_needed 0 (clamp_to_one (-2)) = false ∧
    scaling_down_is_needed 3 (clamp_to_one (-2)) = false :=
  ⟨(C1_clamp_and_negative_no_action 5).1 (by decide),
   (C1_clamp_and_negative_no_action 0).2.1 rfl,
   ((C1_clamp_and_negative_no_action (-2)).2.2 (by decide) 0).1,
   ((C1_clamp_and_negative_no_action (-2)).2.2 (by decide) 3).2⟩

/-- Claim C3 names the intended behavior (404 on the scale read is a
transient skip), but the code slips: `get_replicas` (src/main.py:156-167)
catches the 404 from `read_scale`, logs, and then evaluates
`scale.status.replicas` with `scale` never assigned, raising
`UnboundLocalError`; `update_target` catches only `ApiException` and
`MetricNotFound`, so the error reaches the catch-all in `_watch`
(src/main.py:59-67), which calls `os._exit(1)`.  This theorem evaluates the
embedded code at the failing input: a Deployment-backed HPA whose scale read
answers 404 makes the reconciliation task terminate the whole process. -/
theorem C3_scale_404_crashes_process :
    (update_target hpaDep w404 ⟨0, 0⟩).1 = .fatal .unboundLocal ∧
    watch_step hpaDep w404 ⟨0, 0⟩ = .exitProcess 1 := by
  exact ⟨by decide, by decide⟩

/-- Claim C7: for every tracked HPA whose selected stabilization window is
zero, a detected scale intent is confirmed immediately: `scaling_is_needed`
returns true, and the final read counters equal the initial ones plus the
single intent-detecting read, so no poll iteration (no re-read, no
cancellation check) is executed. -/
theorem C7_zero_window_confirms_immediately (hpa : HPA) (w : World)
    (st st1 : St) (c n : Int)
    (h1 : get_replicas w st = (.ok (c, n), st1))
    (h2 : (scaling_up_is_needed c n = true ∧ hpa.scale_up_stabilization_window = 0) ∨
          (scaling_down_is_needed c n = true ∧ hpa.scale_down_stabilization_window = 0)) :
    scaling_is_needed hpa w st = (.ok true, st1) ∧
    st1.scaleIdx = st.scaleIdx + 1 ∧ st1.metricIdx = st.metricIdx + 1 := by
  have hcount := (get_replicas_ok_inv w st st1 c n h1).2
  refine ⟨?_, by rw [hcount], by rw [hcount]⟩
  unfold scaling_is_needed
  rw [h1]
  rcases h2 with ⟨hup, hw⟩ | ⟨hdown, hw⟩
  · simp [hup, hw]
  · simp [scaling_down_not_up c n hdown, hdown, hw]

/-- Witness for C7: metric 7 against 0 current replicas, both windows 0. -/
theorem C7_zero_window_confirms_immediately_witness :
    scaling_is_needed hpaDep wMetricFive ⟨0, 0⟩ = (.ok true, ⟨1, 1⟩) ∧
    (⟨1, 1⟩ : St).scaleIdx = (⟨0, 0⟩ : St).scaleIdx + 1 ∧
    (⟨1, 1⟩ : St).metricIdx = (⟨0, 0⟩ : St).metricIdx + 1 :=
  C7_zero_window_confirms_immediately hpaDep wMetricFive ⟨0, 0⟩ ⟨1, 1⟩ 0 1
    rfl (Or.inl ⟨by decide, rfl⟩)

theorem stabilization_loop_cancel (cur met : Nat → Int) :
    ∀ (i W k : Nat), i < W →
    (∀ j, j < i → (pyBool (cur (k + j)) == pyBool (clamp_to_one (met (k + j)))) = false) →
    (pyBool (cur (k + i)) == pyBool (clamp_to_one (met (k + i)))) = true →
    stabilization_loop (allFoundWorld cur met) W ⟨k, k⟩ =
      (.ok false, ⟨k + i + 1, k + i + 1⟩) := by
  intro i
  induction i with
  | zero =>
      intro W k hW hne heq
      cases W with
      | zero => omega
      | succ W' =>
          simp only [stabilization_loop, get_replicas_allFound]
          rw [Nat.add_zero] at heq
          simp [heq]
  | succ i ih =>
      intro W k hW hne heq
      cases W with
      | zero => omega
      | succ W' =>
          simp only [stabilization_loop, get_replicas_allFound]
          have h0 : (pyBool (cur k) == pyBool (clamp_to_one (met k))) = false := by
            have := hne 0 (Nat.succ_pos i)
            rwa [Nat.add_zero] at this
          rw [h0]
          simp only [Bool.false_eq_true, if_false]
          have hne' : ∀ j, j < i →
              (pyBool (cur (k + 1 + j)) == pyBool (clamp_to_one (met (k + 1 + j)))) = false := by
            intro j hj
            have := hne (j + 1) (by omega)
            rwa [show k + (j + 1) = k + 1 + j by omega] at this
          have heq' :
              (pyBool (cur (k + 1 + i)) == pyBool (clamp_to_one (met (k + 1 + i)))) = true := by
            rwa [show k + (i + 1) = k + 1 + i by omega] at heq
          have := ih W' (k + 1) (by omega) hne' heq'
          rw [this]
          congr 2 <;> omega

/-- Claim C2: for every tracked HPA with a nonzero stabilization window, if
at some poll during the debounce wait the fresh read gives
`bool(current) == bool(needed)`, the pending scale is canceled:
`scaling_is_needed` returns false right at that poll (the returned read
counters show the window had not fully elapsed) and `update_target` issues
no patch for that episode, even though the original scale intent was
detected at the initial read. -/
theorem C2_window_cancellation (hpa : HPA) (cur met : Nat → Int) (i W : Nat)
    (hkind : hpa.target_kind = "Deployment" ∨ hpa.target_kind = "StatefulSet")
    (hintent :
      (scaling_up_is_needed (cur 0) (clamp_to_one (met 0)) = true ∧
        hpa.scale_up_stabilization_window = W) ∨
      (scaling_down_is_needed (cur 0) (clamp_to_one (met 0)) = true ∧
        hpa.scale_down_stabilization_window = W))
    (hW : 0 < W) (hi : i < W)
    (hne : ∀ j, j < i →
      (pyBool (cur (j + 1)) == pyBool (clamp_to_one (met (j + 1)))) = false)
    (heq : (pyBool (cur (i + 1)) == pyBool (clamp_to_one (met (i + 1)))) = true) :
    scaling_is_needed hpa (allFoundWorld cur met) ⟨0, 0⟩ = (.ok false, ⟨i + 2, i + 2⟩) ∧
    (update_target hpa (allFoundWorld cur met) ⟨0, 0⟩).1 = .noPatch := by
  have hloop : stabilization_loop (allFoundWorld cur met) W ⟨1, 1⟩ =
      (.ok false, ⟨i + 2, i + 2⟩) := by
    have hne1 : ∀ j, j < i →
        (pyBool (cur (1 + j)) == pyBool (clamp_to_one (met (1 + j)))) = false := by
      intro j hj
      have := hne j hj
      rwa [show j + 1 = 1 + j by omega] at this
    have heq1 : (pyBool (cur (1 + i)) == pyBool (clamp_to_one (met (1 + i)))) = true := by
      rwa [show i + 1 = 1 + i by omega] at heq
    have := stabilization_loop_cancel cur met i W 1 hi hne1 heq1
    rw [this]
    congr 2 <;> omega
  have hsn : scaling_is_needed hpa (allFoundWorld cur met) ⟨0, 0⟩ =
      (.ok false, ⟨i + 2, i + 2⟩) := by
    unfold scaling_is_needed
    rw [get_replicas_allFound cur met 0]
    rcases hintent with ⟨hup, hw⟩ | ⟨hdown, hw⟩
    · simp only [hup, if_true, hw]
      rw [if_neg (by omega)]
      exact hloop
    · simp only [scaling_down_not_up _ _ hdown, hdown, Bool.false_eq_true, if_false,
        if_true, hw]
      rw [if_neg (by omega)]
      exact hloop
  refine ⟨hsn, ?_⟩
  unfold update_target
  rw [if_pos hkind, hsn]
  simp only [get_replicas_allFound]

/-- Witness for C2: current replicas constantly 1, metric 0 at the intent
read and the first poll, back to 3 at the second poll, scale-down window 5:
the scale is canceled at poll index 1 and no patch is issued. -/
theorem C2_window_cancellation_witness :
    scaling_is_needed hpaDownWindow (allFoundWorld curOne metFlip) ⟨0, 0⟩ =
      (.ok false, ⟨3, 3⟩) ∧
    (update_target hpaDownWindow (allFoundWorld curOne metFlip) ⟨0, 0⟩).1 = .noPatch :=
  C2_window_cancellation hpaDownWindow curOne metFlip 1 5 (Or.inl rfl)
    (Or.inr ⟨by decide, rfl⟩) (by decide) (by decide)
    (by intro j hj; interval_cases j; decide) (by decide)

/-- Claim C6: for every tracked HPA with a supported target kind, whenever
the metric fetch fails with 404, 503 or 403 at any point of the evaluation —
during `scaling_is_needed` (initial read or any poll of the debounce wait),
during the apply step's re-read, or during the logging read of the stable
branch — the `MetricNotFound` raised by `get_needed_replicas` is caught by
`update_target`: no patch is issued, the exception does not escape, and the
reconciliation task keeps running (the registry is not touched:
`update_target` has no access to `HPAs`). -/
theorem C6_metric_unavailable_abandons_cycle (hpa : HPA) (w : World) (st : St)
    (hkind : hpa.target_kind = "Deployment" ∨ hpa.target_kind = "StatefulSet")
    (h : (scaling_is_needed hpa w st).1 = .error .metricNotFound ∨
      ((scaling_is_needed hpa w st).1 = .ok true ∧
        (∃ sc, w.scaleReads (scaling_is_needed hpa w st).2.scaleIdx = .found sc) ∧
        (get_replicas w ⟨(scaling_is_needed hpa w st).2.scaleIdx + 1,
          (scaling_is_needed hpa w st).2.metricIdx⟩).1 = .error .metricNotFound) ∨
      ((scaling_is_needed hpa w st).1 = .ok false ∧
        (get_replicas w (scaling_is_needed hpa w st).2).1 = .error .metricNotFound)) :
    (∀ s : Nat, s = 404 ∨ s = 503 ∨ s = 403 →
      get_needed_replicas (.apiError s) = .error .metricNotFound) ∧
    (update_target hpa w st).1 = .noPatch ∧
    watch_step hpa w st = .keepRunning := by
  have hstatus : ∀ s : Nat, s = 404 ∨ s = 503 ∨ s = 403 →
      get_needed_replicas (.apiError s) = .error .metricNotFound := by
    intro s hs
    simp [get_needed_replicas, if_pos hs]
  suffices hnp : (update_target hpa w st).1 = .noPatch by
    refine ⟨hstatus, hnp, ?_⟩
    unfold watch_step
    rw [hnp]
  rcases hsn : scaling_is_needed hpa w st with ⟨r, st1⟩
  rw [hsn] at h
  unfold update_target
  rw [if_pos hkind, hsn]
  rcases h with h | ⟨hr, ⟨sc, hsc⟩, hgr⟩ | ⟨hr, hgr⟩
  · simp only at h
    subst h
    rfl
  · simp only at hr hsc hgr
    subst hr
    change (apply_scaling w st1).1 = UpdateOutcome.noPatch
    unfold apply_scaling
    rw [hsc]
    rcases hg2 : get_replicas w ⟨st1.scaleIdx + 1, st1.metricIdx⟩ with ⟨rr, st3⟩
    rw [hg2] at hgr
    simp only at hgr
    subst hgr
    rfl
  · simp only at hr hgr
    subst hr
    change (match get_replicas w st1 with
      | (Except.ok a, st2) => (UpdateOutcome.noPatch, st2)
      | (Except.error e, st2) => (catch_api_and_metric e, st2)).1 = UpdateOutcome.noPatch
    rcases hg2 : get_replicas w st1 with ⟨rr, st3⟩
    rw [hg2] at hgr
    simp only at hgr
    subst hgr
    rfl

/-- Witness for C6: scale reads succeed, every metric read answers 503;
the evaluation of Deployment ns/a is abandoned without a patch and the
task keeps running. -/
theorem C6_metric_unavailable_abandons_cycle_witness :
    (update_target hpaDep w503 ⟨0, 0⟩).1 = .noPatch ∧
    watch_step hpaDep w503 ⟨0, 0⟩ = .keepRunning :=
  (C6_metric_unavailable_abandons_cycle hpaDep w503 ⟨0, 0⟩ (Or.inl rfl)
    (Or.inl rfl)).2

theorem update_target_patched_inv (hpa : HPA) (w : World) (st st' : St) (body : Scale)
    (h : update_target hpa w st = (.patched body, st')) :
    ∃ sc c n, w.scaleReads (scaling_is_needed hpa w st).2.scaleIdx = .found sc ∧
      get_replicas w ⟨(scaling_is_needed hpa w st).2.scaleIdx + 1,
        (scaling_is_needed hpa w st).2.metricIdx⟩ = (.ok (c, n), st') ∧
      body = { sc with spec_replicas := n } := by
  unfold update_target at h
  split at h
  · split at h
    · rename_i st1 heq
      rw [heq]
      unfold apply_scaling at h
      split at h
      · rename_i sc hsc
        split at h
        · rename_i c n st3 hg
          simp only [Prod.mk.injEq, UpdateOutcome.patched.injEq] at h
          exact ⟨sc, c, n, hsc, by rw [hg, h.2], h.1.symm⟩
        · rename_i e st3 hg
          exact absurd (congrArg Prod.fst h)
            (by simpa using catch_api_and_metric_ne_patched e body)
      · simp at h
      · rename_i s hsc
        exact absurd (congrArg Prod.fst h)
          (by simpa using catch_api_and_metric_ne_patched (.apiException s) body)
    · rename_i st1 heq
      split at h
      · simp at h
      · rename_i e st2 hg
        exact absurd (congrArg Prod.fst h)
          (by simpa using catch_api_and_metric_ne_patched e body)
    · rename_i e st1 heq
      exact absurd (congrArg Prod.fst h)
        (by simpa using catch_api_and_metric_ne_patched e body)
  · simp at h

/-- Counterexample to claim C9 as stated.  In the world `wTwoReads` the
apply step's first scale read (index 1) returns a scale object whose spare
field is "a"; `update_target` then calls `get_replicas`, whose scale read
(index 2) — the read immediately preceding the patch — returns an object
whose spare field is "b".  The patch body carries "a" (the final counters
⟨3, 2⟩ show reads 0, 1 and 2 were all consumed before the patch), so a field
other than replicas differs from the value just read. -/
theorem C9_counterexample :
    update_target hpaDep wTwoReads ⟨0, 0⟩ = (.patched ⟨1, 0, "a"⟩, ⟨3, 2⟩) ∧
    wTwoReads.scaleReads 2 = .found ⟨1, 1, "b"⟩ ∧ ("a" : String) ≠ "b" := by
  refine ⟨by decide, by decide, by decide⟩

/-- Claim C9 amended: every patch writes back the full scale object obtained
from the FIRST read of the apply step (the read at src/main.py:184, performed
right after `scaling_is_needed` confirms), with only `spec.replicas` mutated;
every other field of the patched body equals that read's values.  (The claim
as stated fails because `get_replicas` performs one further scale read
between that read and the patch; see the counterexample.) -/
theorem C9_patch_preserves_first_read_fields (hpa : HPA) (w : World)
    (st st' : St) (body : Scale)
    (h : update_target hpa w st = (.patched body, st')) :
    ∃ sc n, w.scaleReads (scaling_is_needed hpa w st).2.scaleIdx = .found sc ∧
      body = { sc with spec_replicas := n } ∧
      body.status_replicas = sc.status_replicas ∧
      body.otherFields = sc.otherFields := by
  obtain ⟨sc, c, n, hsc, hgr, hbody⟩ := update_target_patched_inv hpa w st st' body h
  exact ⟨sc, n, hsc, hbody, by rw [hbody], by rw [hbody]⟩

/-- Witness for the amended C9 in the world `wTwoReads`: the patched body
⟨1, 0, "a"⟩ is the first-read object with replicas set, and its non-replicas
fields match that read. -/
theorem C9_patch_preserves_first_read_fields_witness :
    ∃ sc n, wTwoReads.scaleReads
        (scaling_is_needed hpaDep wTwoReads ⟨0, 0⟩).2.scaleIdx = .found sc ∧
      (⟨1, 0, "a"⟩ : Scale) = { sc with spec_replicas := n } ∧
      (⟨1, 0, "a"⟩ : Scale).status_replicas = sc.status_replicas ∧
      (⟨1, 0, "a"⟩ : Scale).otherFields = sc.otherFields :=
  C9_patch_preserves_first_read_fields hpaDep wTwoReads ⟨0, 0⟩ ⟨3, 2⟩ ⟨1, 0, "a"⟩
    (by decide)

/-- Claim C10: every patch the controller ever issues sets the desired
replica count to at most 1: whatever the world answers and whatever state
the run is in, a `.patched body` outcome of `update_target` has
`body.spec_replicas ≤ 1`, because the patched value is always
`min(metric, 1)` computed by `get_needed_replicas`. -/
theorem C10_patched_replicas_at_most_one (hpa : HPA) (w : World)
    (st st' : St) (body : Scale)
    (h : update_target hpa w st = (.patched body, st')) :
    body.spec_replicas ≤ 1 := by
  obtain ⟨sc, c, n, hsc, hgr, hbody⟩ := update_target_patched_inv hpa w st st' body h
  have hn : n ≤ 1 := (get_replicas_ok_inv w _ st' c n hgr).1
  rw [hbody]
  exact hn

/-- Witness for C10: with the metric constantly 5, the issued patch sets
replicas to 1 (not 5), which is at most 1. -/
theorem C10_patched_replicas_at_most_one_witness :
    (update_target hpaDep wMetricFive ⟨0, 0⟩).1 = .patched ⟨0, 1, "x"⟩ ∧
    (⟨0, 1, "x"⟩ : Scale).spec_replicas ≤ 1 :=
  ⟨by decide,
   C10_patched_replicas_at_most_one hpaDep wMetricFive ⟨0, 0⟩ ⟨3, 2⟩ ⟨0, 1, "x"⟩
     (by decide)⟩

theorem regContains_regInsert (reg : Registry) (key K : String) (h : HPA) :
    regContains (regInsert reg key h) K =
      ((key == K) || regContains (regRemove reg key) K) := rfl

theorem regRemove_preserves_not_contains (reg : Registry) (key K : String)
    (h0 : regContains reg K = false) :
    regContains (regRemove reg key) K = false := by
  induction reg with
  | nil => rfl
  | cons p rest ih =>
      rcases p with ⟨k, hp⟩
      simp only [regContains, Bool.or_eq_false_iff] at h0
      unfold regRemove
      split
      · exact ih h0.2
      · simp only [regContains, Bool.or_eq_false_iff]
        exact ⟨h0.1, ih h0.2⟩

theorem regContains_regRemove_self (reg : Registry) (key : String) :
    regContains (regRemove reg key) key = false := by
  induction reg with
  | nil => rfl
  | cons p rest ih =>
      rcases p with ⟨k, hp⟩
      unfold regRemove
      split
      · exact ih
      · rename_i hne
        simp only [regContains, Bool.or_eq_false_iff]
        exact ⟨by simpa using hne, ih⟩

theorem update_hpa_no_upsert (reg : Registry) (ev : WatchEvent) (upW downW : Nat)
    (K : String) (h0 : regContains reg K = false)
    (hK : eventKey ev = K → ∀ s, ev.read = .found s →
      ∃ e, build_metric_value_path ev.nspace s.annotations = .error e) :
    regContains (update_hpa reg ev upW downW).1 K = false := by
  cases hr : ev.read with
  | found s =>
      cases hb : build_metric_value_path ev.nspace s.annotations with
      | error e =>
          simp only [update_hpa, hr, hb]
          exact h0
      | ok path =>
          have hne : (eventKey ev == K) = false := by
            rw [beq_eq_false_iff_ne]
            intro hk
            obtain ⟨e, he⟩ := hK hk s hr
            rw [he] at hb
            exact Except.noConfusion hb
          simp only [update_hpa, hr, hb]
          rw [regContains_regInsert, hne, Bool.false_or]
          exact regRemove_preserves_not_contains reg (eventKey ev) K h0
  | notFound =>
      simp only [update_hpa, hr]
      exact regRemove_preserves_not_contains reg (eventKey ev) K h0
  | apiError s =>
      simp only [update_hpa, hr]
      exact h0

theorem process_events_no_upsert (upW downW : Nat) (K : String) :
    ∀ (evs : List WatchEvent) (reg : Registry), regContains reg K = false →
    (∀ ev ∈ evs, eventKey ev = K → ∀ s, ev.read = .found s →
      ∃ e, build_metric_value_path ev.nspace s.annotations = .error e) →
    regContains (process_events reg upW downW evs).1 K = false := by
  intro evs
  induction evs with
  | nil => intro reg h0 h; exact h0
  | cons ev rest ih =>
      intro reg h0 h
      have h1 : regContains (update_hpa reg ev upW downW).1 K = false :=
        update_hpa_no_upsert reg ev upW downW K h0 (h ev (List.mem_cons_self ev rest))
      have hrest : ∀ e ∈ rest, eventKey e = K → ∀ s, e.read = .found s →
          ∃ b, build_metric_value_path e.nspace s.annotations = .error b :=
        fun e he => h e (List.mem_cons_of_mem _ he)
      unfold process_events
      rcases hu : update_hpa reg ev upW downW with ⟨reg', oe⟩
      rw [hu] at h1
      match oe with
      | none => exact ih reg' h1 hrest
      | some (.api s) =>
          by_cases hs : s = 410
          · simp only [hs, if_true]
            exact ih reg' h1 hrest
          · simp only [if_neg hs]
            exact h1
      | some (.buildError e) => exact h1

/-- Counterexample to claim C4 as stated.  The added event `evBad` carries
an annotation with no Object entry: `build_metric_value_path` raises
`StopIteration`, which `update_hpa` does not catch (it catches only
`ApiException`), so the watcher stops with that error and the subsequent
valid event `evGood` is never processed — the failure propagates past the
failing event's processing instead of being handled there. -/
theorem C4_counterexample :
    process_events [] 0 0 [evBad, evGood] = ([], some (.buildError .stopIteration)) ∧
    regContains (process_events [] 0 0 [evBad, evGood]).1 (eventKey evGood) = false := by
  exact ⟨by decide, by decide⟩

/-- Claim C4 amended: for every discovery event whose HPA metric annotation
has the wrong shape, the failure is logged and the HPA is not upserted (the
registry is returned unchanged), but the exception PROPAGATES out of
`update_hpa` (the source re-raises after logging and `update_hpa` catches
only `ApiException`), terminating the discovery watcher and hence the
process; the watcher does not continue with subsequent events. -/
theorem C4_parse_failure_logged_not_upserted_but_propagates
    (reg : Registry) (ev : WatchEvent) (upW downW : Nat)
    (s : HpaSpecRead) (e : BuildErr)
    (hread : ev.read = .found s)
    (hbuild : build_metric_value_path ev.nspace s.annotations = .error e) :
    update_hpa reg ev upW downW = (reg, some (.buildError e)) := by
  simp only [update_hpa, hread, hbuild]

/-- Witness for the amended C4 at the event `evBad`. -/
theorem C4_parse_failure_logged_not_upserted_but_propagates_witness :
    update_hpa [] evBad 0 0 = ([], some (.buildError .stopIteration)) :=
  C4_parse_failure_logged_not_upserted_but_propagates [] evBad 0 0
    ⟨[], "Deployment", "a"⟩ .stopIteration rfl rfl

/-- Counterexample to claim C5 as stated.  The event `evTwoObjects` carries
an annotation with TWO qualifying Object entries; the claim says such an HPA
is never present in the registry, but the source takes the first Object
entry (`next(...)`) and upserts: after processing the add event the key is
in the registry. -/
theorem C5_counterexample :
    regContains (update_hpa [] evTwoObjects 0 0).1 (eventKey evTwoObjects) = true := by
  decide

/-- Claim C5 amended: an HPA whose metric annotation has zero Object-typed
entries, or whose FIRST Object-typed entry has a non-empty selector or a
target kind other than Service, is never upserted: `update_hpa` leaves the
registry unchanged for every such event.  (With two or more Object entries
only the first is examined; if it qualifies, the HPA IS upserted, which is
what refutes the original claim.) -/
theorem C5_rejected_annotation_never_upserted
    (reg : Registry) (ev : WatchEvent) (upW downW : Nat) (s : HpaSpecRead)
    (hread : ev.read = .found s)
    (hshape : s.annotations.find? (fun m => m.entryType == "Object") = none ∨
      ∃ m, s.annotations.find? (fun m => m.entryType == "Object") = some m ∧
        (m.object.selector.isEmpty = false ∨ m.object.targetKind ≠ "Service")) :
    (update_hpa reg ev upW downW).1 = reg := by
  have hbuild : ∃ e, build_metric_value_path ev.nspace s.annotations = .error e := by
    unfold build_metric_value_path
    rcases hshape with hnone | ⟨m, hfind, hbad⟩
    · rw [hnone]
      exact ⟨.stopIteration, rfl⟩
    · rw [hfind]
      rcases hbad with hsel | hkind
      · refine ⟨.assertionError, ?_⟩
        simp [hsel]
      · refine ⟨.assertionError, ?_⟩
        cases hs : m.object.selector.isEmpty
        · simp [hs]
        · simp [hs, hkind]
  obtain ⟨e, he⟩ := hbuild
  simp only [update_hpa, hread, he]

/-- Witness for the amended C5 at the event `evPodTarget`, whose only Object
entry targets a Pod instead of a Service. -/
theorem C5_rejected_annotation_never_upserted_witness :
    (update_hpa [] evPodTarget 0 0).1 = [] :=
  C5_rejected_annotation_never_upserted [] evPodTarget 0 0
    ⟨[entryPod], "Deployment", "c"⟩ rfl
    (Or.inr ⟨entryPod, rfl, Or.inr (by decide)⟩)

/-- Counterexample to claim C8 as stated.  `update_hpa` never consults the
event type: processing the DELETE event `evDeleteFound`, whose fresh re-read
still finds the HPA with a valid annotation, UPSERTS the key — immediately
after a delete event is processed for K the registry contains K, with no
add/modify event for K ever observed. -/
theorem C8_counterexample :
    evDeleteFound.etype = .deleted ∧
    regContains (update_hpa [] evDeleteFound 0 0).1 (eventKey evDeleteFound) = true := by
  exact ⟨rfl, by decide⟩

/-- Claim C8 amended: after an event for namespaced name K is processed whose
fresh read returns not-found, K is removed from the registry and no later
event keeps or puts K in it until one is processed, of ANY event type, whose
fresh read finds the HPA and whose metric annotation resolves successfully.
(The source ignores the event type, so a delete event with a successful read
re-upserts — which is what refutes the original claim.) -/
theorem C8_not_found_removal_persists (reg : Registry) (upW downW : Nat)
    (K : String) (evNF : WatchEvent) (evs : List WatchEvent)
    (hkey : eventKey evNF = K)
    (hnf : evNF.read = .notFound)
    (h : ∀ ev ∈ evs, eventKey ev = K → ∀ s, ev.read = .found s →
      ∃ e, build_metric_value_path ev.nspace s.annotations = .error e) :
    regContains (process_events reg upW downW (evNF :: evs)).1 K = false := by
  have hu : update_hpa reg evNF upW downW = (regRemove reg (eventKey evNF), none) := by
    simp only [update_hpa, hnf]
  have h0 : regContains (regRemove reg (eventKey evNF)) K = false := by
    rw [hkey]
    exact regContains_regRemove_self reg K
  unfold process_events
  rw [hu]
  exact process_events_no_upsert upW downW K evs _ h0 h

/-- Witness for the amended C8: starting from a registry containing ns/a,
a not-found delete event for ns/a followed by a valid event for ns/b leaves
ns/a out of the registry. -/
theorem C8_not_found_removal_persists_witness :
    regContains
      (process_events [(eventKey evNotFound, hpaDep)] 0 0 [evNotFound, evGood]).1
      (eventKey evNotFound) = false :=
  C8_not_found_removal_persists [(eventKey evNotFound, hpaDep)] 0 0
    (eventKey evNotFound) evNotFound [evGood] rfl rfl
    (by
      intro ev hev hk s hr
      simp only [List.mem_singleton] at hev
      subst hev
      exact absurd hk (by decide))
